import Mathlib

/-!
Verification of the configuration-rewriting and sandboxed-execution core of
the `coderun-agent` service (`src/api/coderun-agent/agent.py`).

Code buffers are modelled as `List Char`.  The regular expressions used by
the source are of a very restricted shape (literal text, possibly with a
few `[^c]+` character-class gaps), so they are embedded as executable
matching functions over character lists.  All definitions are computable
and mirror the Python source line by line; fuel arguments equal to the
length of the scanned buffer are used to make the scanning loops
structurally recursive (every scanning step consumes at least one
character, so the fuel never runs out on the initial call).
-/

namespace QiskitAgent

set_option maxRecDepth 20000

/-- Substring test: `hasSub pat s` is `true` iff `pat` occurs contiguously in
`s` (Python `pat in s` / `re.search` of a literal pattern). -/
def hasSub (pat : List Char) : List Char → Bool
  | [] => pat.isPrefixOf []
  | c :: rest => pat.isPrefixOf (c :: rest) || hasSub pat rest

/-- Fuelled worker for `replaceAll`.  At each position, if the (non-empty)
literal pattern starts there, emit the replacement and continue after the
matched text; otherwise keep the character.  This is the semantics of
Python `str.replace` and of `re.sub` with a literal pattern (leftmost,
non-overlapping, all occurrences). -/
def replaceAllF (pat repl : List Char) : Nat → List Char → List Char
  | _, [] => []
  | 0, s => s
  | fuel + 1, c :: rest =>
    if pat.isPrefixOf (c :: rest) && !pat.isEmpty then
      repl ++ replaceAllF pat repl fuel ((c :: rest).drop pat.length)
    else
      c :: replaceAllF pat repl fuel rest

/-- Replace every occurrence of the literal `pat` in `s` by `repl`. -/
def replaceAll (pat repl s : List Char) : List Char :=
  replaceAllF pat repl s.length s

/-- Fuelled worker for `splitOnP`: the list of maximal gap segments lying
between consecutive leftmost non-overlapping occurrences of `pat`. -/
def splitOnPF (pat : List Char) : Nat → List Char → List Char → List (List Char)
  | _, acc, [] => [acc.reverse]
  | 0, acc, s => [acc.reverse ++ s]
  | fuel + 1, acc, c :: rest =>
    if pat.isPrefixOf (c :: rest) && !pat.isEmpty then
      acc.reverse :: splitOnPF pat fuel [] ((c :: rest).drop pat.length)
    else
      splitOnPF pat fuel (c :: acc) rest

/-- Split `s` at every leftmost non-overlapping occurrence of `pat`,
returning the in-between segments (never `[]`, always one more segment
than there are occurrences). -/
def splitOnP (pat s : List Char) : List (List Char) :=
  splitOnPF pat s.length [] s

/-- Interleave `sep` between the entries of a list of segments. -/
def intercal (sep : List Char) : List (List Char) → List Char
  | [] => []
  | [x] => x
  | x :: y :: rest => x ++ sep ++ intercal sep (y :: rest)

/-- Token of the restricted regular-expression shapes used by
`agent.py`: either a literal, or a greedy non-empty run of characters
different from a given character (`[^c]+`). -/
inductive RTok
  | lit (s : List Char)
  | many1Not (c : Char)

/-- Try to match a token sequence at the start of `s`; on success return
the remaining suffix.  `many1Not c` is greedy; in every pattern of the
source it is immediately followed by a literal starting with `c`, so greedy
matching without backtracking coincides with Python semantics. -/
def matchToks : List RTok → List Char → Option (List Char)
  | [], s => some s
  | RTok.lit p :: ts, s =>
    if p.isPrefixOf s then matchToks ts (s.drop p.length) else none
  | RTok.many1Not c :: ts, s =>
    let run := s.takeWhile (fun d => !(d = c))
    if run.isEmpty then none else matchToks ts (s.drop run.length)

/-- `re.search`: does the token pattern match at some position of `s`? -/
def rmatch (ts : List RTok) : List Char → Bool
  | [] => (matchToks ts []).isSome
  | c :: rest => (matchToks ts (c :: rest)).isSome || rmatch ts rest

/-- Fuelled worker for `rsub` (Python `re.sub`: leftmost non-overlapping
occurrences, all replaced).  Every pattern used by the source starts with a
non-empty literal, so each match consumes at least one character. -/
def rsubF (ts : List RTok) (repl : List Char) : Nat → List Char → List Char
  | _, [] => []
  | 0, s => s
  | fuel + 1, c :: rest =>
    match matchToks ts (c :: rest) with
    | some r => repl ++ rsubF ts repl fuel r
    | none => c :: rsubF ts repl fuel rest

/-- Replace every occurrence of the token pattern `ts` in `s` by `repl`. -/
def rsub (ts : List RTok) (repl s : List Char) : List Char :=
  rsubF ts repl s.length s

/-- The apostrophe character (spelled via its code point). -/
def sq : Char := Char.ofNat 39

/-- Left curly brace (spelled via its code point). -/
def lb : Char := Char.ofNat 123

/-- Right curly brace (spelled via its code point). -/
def rb : Char := Char.ofNat 125

/-! ### The credential configuration (`ibm_config` dict of `agent.py`) -/

/-- The `ibm_config` dictionary: `token`, `channel`, `instance`, `region`
entries.  `none` models an absent key (or a Python `None` value); Python
truthiness of a string key is "present and non-empty". -/
structure IbmConfig where
  token : Option String
  channel : Option String
  inst : Option String
  region : Option String
deriving DecidableEq

/-- Python truthiness of an optional string value. -/
def truthyOpt : Option String → Bool
  | none => false
  | some s => !(s == "")

/-! ### Pattern and replacement constants (`agent.py` lines 67-94, 137-140,
143, 170-171) -/

/-- `aer_pattern` (line 67): the local-simulator block; the regex is pure
literal text. -/
def aer_pattern : List Char :=
  "from qiskit_aer import AerSimulator\n\nbackend = AerSimulator()\nprint(\"Using local simulator...\")".data

/-- `ibm_pattern_no_token` (line 70): remote-service block without
credential; pure literal text. -/
def ibm_pattern_no_token : List Char :=
  "from qiskit_ibm_runtime import QiskitRuntimeService\n\nservice = QiskitRuntimeService()\nbackend = service.least_busy(operational=True, simulator=False)".data

/-- `ibm_pattern_with_token` (line 73): remote-service block with an
existing credential; the regex contains one single-quote-delimited gap. -/
def ibm_pattern_with_token : List RTok :=
  [RTok.lit ("from qiskit_ibm_runtime import QiskitRuntimeService\n\nservice = QiskitRuntimeService(token=".data ++ [sq]),
   RTok.many1Not sq,
   RTok.lit ([sq] ++ ")\nbackend = service.least_busy(operational=True, simulator=False)".data)]

/-- One `name="value"` service parameter (f-strings at lines 76-82). -/
def quoteParam (name v : String) : List Char :=
  (name ++ "=\"" ++ v ++ "\"").data

/-- The service parameter list (lines 76-82): channel and token always,
instance and region only when truthy. -/
def service_params (t : String) (cfg : IbmConfig) : List (List Char) :=
  [quoteParam "channel" (cfg.channel.getD "ibm_quantum"), quoteParam "token" t]
  ++ (match cfg.inst with
      | some s => if s == "" then [] else [quoteParam "instance" s]
      | none => [])
  ++ (match cfg.region with
      | some s => if s == "" then [] else [quoteParam "region" s]
      | none => [])

/-- `service_params_str` (line 84): parameters joined by a comma, newline
and four-space indent. -/
def service_params_str (t : String) (cfg : IbmConfig) : List Char :=
  intercal (",\n    ".data) (service_params t cfg)

/-- The token-present replacement block (f-string at lines 87-94). -/
def token_replacement (ps : List Char) : List Char :=
  "from qiskit_ibm_runtime import QiskitRuntimeService\n\n# Initialize IBM Quantum Runtime Service with provided configuration\nservice = QiskitRuntimeService(\n    ".data
  ++ ps
  ++ "\n)\nbackend = service.least_busy(operational=True, simulator=False)\nprint(f\"Using IBM Quantum backend: ".data
  ++ [lb] ++ "backend.name".data ++ [rb] ++ "\")".data

/-- The bare no-argument service-construction call (line 112). -/
def qrs_call : List Char := "QiskitRuntimeService()".data

/-- The text injected into a bare construction call (f-string, line 116). -/
def qrs_inject (ps : List Char) : List Char :=
  "QiskitRuntimeService(\n    ".data ++ ps ++ "\n)".data

/-- The local-simulator replacement block (lines 137-140); its text equals
`aer_pattern`, which is what makes the two families mutually idempotent on
single-trigger buffers. -/
def local_sim_replacement : List Char :=
  "from qiskit_aer import AerSimulator\n\nbackend = AerSimulator()\nprint(\"Using local simulator...\")".data

/-- `ibm_config_pattern` (line 143): the designated remote-config section
header, searched for as a literal. -/
def header_pattern : List Char := "## STEP 0 : IBM Quantum Config".data

/-- Legacy full-block pattern #1 (line 170), with an existing credential;
contains a single-quote-delimited gap and a brace-delimited gap. -/
def legacy_pattern_with_token : List RTok :=
  [RTok.lit ("from qiskit_ibm_runtime import QiskitRuntimeService\n\nservice = QiskitRuntimeService(token=".data ++ [sq]),
   RTok.many1Not sq,
   RTok.lit ([sq] ++ ")\nbackend = service.least_busy(operational=True, simulator=False)\nprint(f\"Using IBM Quantum backend: ".data ++ [lb]),
   RTok.many1Not rb,
   RTok.lit ([rb] ++ "\")".data)]

/-- Legacy full-block pattern #2 (line 171), without credential; pure
literal text (same text as `ibm_pattern_no_token`). -/
def legacy_pattern_no_token : List Char :=
  "from qiskit_ibm_runtime import QiskitRuntimeService\n\nservice = QiskitRuntimeService()\nbackend = service.least_busy(operational=True, simulator=False)".data

/-! ### Section splitting (lines 144-166) -/

/-- Match the section-marker regex `## STEP \d+.*?\n` at the start of `s`:
the literal `## STEP `, at least one digit (greedy), then the rest of the
line up to and including the first newline.  Returns the matched text and
the suffix after it. -/
def sepMatchAt (s : List Char) : Option (List Char × List Char) :=
  let p := "## STEP ".data
  if p.isPrefixOf s then
    let s1 := s.drop p.length
    let digits := s1.takeWhile Char.isDigit
    if digits.isEmpty then none
    else
      let s2 := s1.drop digits.length
      let line := s2.takeWhile (fun c => !(c = '\n'))
      match s2.drop line.length with
      | [] => none
      | _ :: s4 => some (p ++ digits ++ line ++ ['\n'], s4)
  else none

/-- Fuelled worker for `splitSections`. -/
def splitSectionsF : Nat → List Char → List Char → List (List Char)
  | _, acc, [] => [acc.reverse]
  | 0, acc, s => [acc.reverse ++ s]
  | fuel + 1, acc, c :: rest =>
    match sepMatchAt (c :: rest) with
    | some (m, r) => acc.reverse :: m :: splitSectionsF fuel [] r
    | none => splitSectionsF fuel (c :: acc) rest

/-- `re.split(r"(## STEP \d+.*?\n)", code)` (line 148): segments and
markers alternate, markers at odd indices. -/
def splitSections (s : List Char) : List (List Char) :=
  splitSectionsF s.length [] s

/-- Condition of the replacement loop (line 154): a marker mentioning both
`STEP 0` and `IBM Quantum Config`. -/
def step0SepHit (sep : List Char) : Bool :=
  hasSub "STEP 0".data sep && hasSub "IBM Quantum Config".data sep

/-- The loop at lines 153-157: walk the alternating segment/marker list,
and for the first marker satisfying `step0SepHit` overwrite the element
following it with `body`; markers sit at the odd positions of the argument.
The `[]` fallback inside the hit branch is unreachable for lists produced
by `splitSections` (a marker is always followed by one more segment). -/
def replaceStep0 (body : List Char) : List (List Char) → List (List Char)
  | pre :: sep :: rest =>
    if step0SepHit sep then
      pre :: sep :: (match rest with
        | _ :: r2 => body :: r2
        | [] => [])
    else pre :: sep :: replaceStep0 body rest
  | xs => xs

/-- The body text written into the STEP 0 section (line 156). -/
def step0_body : List Char :=
  "\n".data ++ local_sim_replacement ++ "\n\n".data

/-! ### Options-line stripping (lines 164, 183) -/

/-- Split a buffer at every newline; `n` newlines yield `n + 1` pieces, the
first `n` of which are newline-terminated lines. -/
def splitLines : List Char → List (List Char)
  | [] => [[]]
  | c :: rest =>
    if c = '\n' then [] :: splitLines rest
    else
      match splitLines rest with
      | l :: ls => (c :: l) :: ls
      | [] => [[c]]

/-- Rejoin the pieces of `splitLines`, dropping every newline-terminated
line that contains `.options.`; the trailing piece (no newline) is always
kept.  This is `re.sub(r".*?\.options\..*?\n", "", s)`: since `.` does not
match a newline and the match must end with a newline, each match is
exactly one newline-terminated line containing `.options.`. -/
def stripLinesGo : List (List Char) → List Char
  | [] => []
  | [last] => last
  | l :: next :: rest =>
    (if hasSub ".options.".data l then [] else l ++ ['\n'])
    ++ stripLinesGo (next :: rest)

/-- Remove every newline-terminated line containing `.options.`. -/
def stripOptionsLines (s : List Char) : List Char :=
  stripLinesGo (splitLines s)

/-! ### The rewriter `replace_ibm_quantum_config` (lines 51-189) -/

/-- The token-present rule family (lines 66-123), reached when a credential
with a truthy token is supplied; four rules in strict priority order, first
match wins, otherwise the buffer is returned unchanged. -/
def token_present_rewrite (t : String) (cfg : IbmConfig) (code : List Char) : List Char :=
  let ps := service_params_str t cfg
  let repl := token_replacement ps
  if hasSub aer_pattern code then replaceAll aer_pattern repl code
  else if hasSub ibm_pattern_no_token code then replaceAll ibm_pattern_no_token repl code
  else if rmatch ibm_pattern_with_token code then rsub ibm_pattern_with_token repl code
  else if hasSub qrs_call code then replaceAll qrs_call (qrs_inject ps) code
  else code

/-- The legacy full-block fallback (lines 168-185): the two patterns are
tried in order; on a match the block is replaced by the local-simulator
text and the options lines are stripped; otherwise the buffer is returned
unchanged (lines 186-189). -/
def legacy_rewrite (code : List Char) : List Char :=
  if rmatch legacy_pattern_with_token code then
    stripOptionsLines (rsub legacy_pattern_with_token local_sim_replacement code)
  else if hasSub legacy_pattern_no_token code then
    stripOptionsLines (replaceAll legacy_pattern_no_token local_sim_replacement code)
  else code

/-- The token-absent rule family (lines 125-189).  In cloud mode the buffer
is returned untouched (lines 126-130).  In local mode, if the designated
header is present and splitting produces at least three pieces (i.e. at
least one complete marker line), the STEP 0 body is replaced and options
lines stripped; otherwise the legacy fallback runs. -/
def token_absent_rewrite (local_mode : Bool) (code : List Char) : List Char :=
  if !local_mode then code
  else if hasSub header_pattern code then
    (let sections := splitSections code
     if 3 ≤ sections.length then
       stripOptionsLines (List.flatten (replaceStep0 step0_body sections))
     else legacy_rewrite code)
  else legacy_rewrite code

/-- `replace_ibm_quantum_config` (lines 51-189).  The Python guard
`if ibm_config and ibm_config.get("token"):` selects the token-present
family exactly when a config object is supplied whose `token` entry is a
non-empty string; otherwise the token-absent family runs (which itself
returns the buffer unchanged in cloud mode). -/
def replace_ibm_quantum_config (local_mode : Bool) (code : List Char)
    (ibm_config : Option IbmConfig) : List Char :=
  match ibm_config with
  | some cfg =>
    match cfg.token with
    | some t =>
      if t == "" then token_absent_rewrite local_mode code
      else token_present_rewrite t cfg code
    | none => token_absent_rewrite local_mode code
  | none => token_absent_rewrite local_mode code

/-! ### The execution sandbox `execute_python_code` (lines 192-232)

The sandbox runs the rewritten buffer with `exec`, capturing the two output
channels in two separate `StringIO` buffers.  The behaviour of the
executed Python program is abstracted as a `PyBehavior`: the ordered list
of writes it performs (to stdout or stderr) before finishing or faulting,
and an optional fault message.  A semantics function
`pySem : List Char → PyBehavior` maps each buffer to its behaviour; the
capture and error-formatting logic of the sandbox is embedded exactly. -/

/-- An output channel of the executed program. -/
inductive Chan
  | stdout
  | stderr
deriving DecidableEq

/-- The observable behaviour of executing one code buffer: the ordered
writes it performed (before the fault, if it faulted) and the optional
fault message. -/
structure PyBehavior where
  writes : List (Chan × List Char)
  fault : Option (List Char)
deriving DecidableEq

/-- Everything the program wrote to one channel, in write order: the
contents of the corresponding `StringIO` capture buffer. -/
def channelText (c : Chan) (b : PyBehavior) : List Char :=
  List.flatten (b.writes.filterMap fun w => if w.1 = c then some w.2 else none)

/-- The sentinel returned on success with no captured output (line 226). -/
def no_output_sentinel : List Char :=
  "Code executed successfully (no output)".data

/-- Lines 199-232: on success, the stdout capture followed by the stderr
capture, or the sentinel when both are empty; on a fault, the
`Error executing code:` line followed by the stderr capture only (the
stdout capture is not read in the `except` branch). -/
def runCapture (b : PyBehavior) : List Char :=
  match b.fault with
  | none =>
    let output := channelText Chan.stdout b ++ channelText Chan.stderr b
    if output.isEmpty then no_output_sentinel else output
  | some msg =>
    "Error executing code: ".data ++ msg ++ "\n".data ++ channelText Chan.stderr b

/-- `execute_python_code` (lines 192-232): rewrite the buffer, run it under
the abstract Python semantics `pySem`, and capture its output.  The
function is total: a fault of the executed buffer is converted to text,
never propagated. -/
def execute_python_code (pySem : List Char → PyBehavior) (local_mode : Bool)
    (code : List Char) (ibm_config : Option IbmConfig) : List Char :=
  runCapture (pySem (replace_ibm_quantum_config local_mode code ibm_config))

/-! ### The gateway `run_program` (lines 235-284) -/

/-- The decoded body of a `/run` request: `badJson` models a body that is
not valid JSON (`request.json()` raises `JSONDecodeError`); `valid` models
a decoded JSON object with its optional string fields. -/
structure RunBody where
  input_value : Option String
  ibm_token : Option String
  channel : Option String
  inst : Option String
  region : Option String
deriving DecidableEq

/-- A `/run` request as seen by the endpoint after body decoding. -/
inductive RunRequest
  | badJson
  | valid (body : RunBody)
deriving DecidableEq

/-- The result of the offloaded execution await (lines 268-271): either the
text returned by `execute_python_code`, or an `asyncio.TimeoutError`. -/
inductive ExecResult
  | completed (out : List Char)
  | timedOut
deriving DecidableEq

/-- An HTTP response: its status code, and the value of the `output` field
when the body is a JSON object carrying one (the 400 handler body and the
framework 500 body carry no `output` field). -/
structure HttpResponse where
  status : Nat
  output : Option (List Char)
deriving DecidableEq

/-- The timeout text (f-string at lines 274-276, with
`timeout_seconds / 60` equal to `30` rendered by `:.0f`). -/
def timeout_message : List Char :=
  "Error: Code execution timed out after 30 minutes.".data

/-- Line 283: collapse doubled escaped-newline sequences (`\x5c\x5cn`,
i.e. two backslashes and an `n`) into a real newline. -/
def normalize_output (out : List Char) : List Char :=
  replaceAll "\\\\n".data "\n".data out

/-- Lines 246-251: the `ibm_config` dict is built only when `ibm_token` is
truthy; `channel` defaults to `ibm_quantum` at line 242. -/
def requestConfig (body : RunBody) : Option IbmConfig :=
  match body.ibm_token with
  | some t =>
    if t == "" then none
    else some ⟨some t, some (body.channel.getD "ibm_quantum"), body.inst, body.region⟩
  | none => none

/-- `run_program` (lines 235-284), parameterized by the offloaded
execution `runExec` (the `asyncio.wait_for`-wrapped call of
`execute_python_code` with the code and config of the request).  A body that is
not valid JSON is answered by the registered `JSONDecodeError` handler
(lines 43-48) with status 400.  A valid JSON body without `input_value`
makes `data["input_value"]` (line 239) raise `KeyError`, which no handler
catches, so the framework answers with status 500.  Otherwise the outcome
text (or the timeout text) is normalized and returned with status 200
under the `output` field. -/
def run_program (runExec : List Char → Option IbmConfig → ExecResult) :
    RunRequest → HttpResponse
  | RunRequest.badJson => ⟨400, none⟩
  | RunRequest.valid body =>
    match body.input_value with
    | none => ⟨500, none⟩
    | some code =>
      let output :=
        match runExec code.data (requestConfig body) with
        | ExecResult.completed o => o
        | ExecResult.timedOut => timeout_message
      ⟨200, some (normalize_output output)⟩

/-- A 4xx-class (client error) status. -/
abbrev isClientErr (n : Nat) : Prop := 400 ≤ n ∧ n < 500

/-! ### Isolation model for the `exec` namespace (lines 202-213)

`exec(code, exec_globals)` runs the buffer with a fresh `exec_globals`
dictionary built per invocation (line 204), whose single entry binds
`__builtins__` to the process-wide builtins object (line 205).  To settle
the isolation claim, the executed Python fragment relevant to namespace
sharing is modelled as a small statement language: global-variable
definition and lookup (which go through the fresh `exec_globals` dict) and
attribute mutation and lookup on the shared `__builtins__` object (which
is the same object across invocations).  Undefined lookups print an error
marker instead of aborting; this simplification only makes observations
coarser and does not affect the counterexample. -/

/-- Statements of the modelled Python fragment. -/
inductive PyStmt
  | assignGlobal (x v : String)
  | printGlobal (x : String)
  | setBuiltinAttr (a v : String)
  | printBuiltinAttr (a : String)
deriving DecidableEq

/-- A string-keyed environment (a Python dict / object attribute table). -/
abbrev Env := List (String × String)

/-- Lookup in an environment. -/
def envGet : Env → String → Option String
  | [], _ => none
  | (k, v) :: rest, x => if k = x then some v else envGet rest x

/-- Update an environment (later bindings shadow earlier ones). -/
def envSet (e : Env) (k v : String) : Env := (k, v) :: e

/-- The state of one `exec` invocation: the fresh globals dict, the shared
attribute table of the builtins object, and the output produced so far. -/
structure ExecState where
  globals : Env
  builtins : Env
  out : List Char

/-- One step of the modelled fragment. -/
def runStmt (st : ExecState) : PyStmt → ExecState
  | PyStmt.assignGlobal x v => { st with globals := envSet st.globals x v }
  | PyStmt.printGlobal x =>
    { st with out := st.out ++ ((envGet st.globals x).getD "NameError").data ++ "\n".data }
  | PyStmt.setBuiltinAttr a v => { st with builtins := envSet st.builtins a v }
  | PyStmt.printBuiltinAttr a =>
    { st with out := st.out ++ ((envGet st.builtins a).getD "AttributeError").data ++ "\n".data }

/-- Run a program of the modelled fragment. -/
def runProg (st : ExecState) : List PyStmt → ExecState
  | [] => st
  | s :: rest => runProg (runStmt st s) rest

/-- One sandbox invocation (lines 202-213): a fresh, empty globals dict is
created, the shared builtins table is passed in, and the final builtins
table and the captured output are returned. -/
def execProgram (builtins : Env) (p : List PyStmt) : Env × List Char :=
  let final := runProg ⟨[], builtins, []⟩ p
  (final.builtins, final.out)

/-- Output observed by the second of two sequential requests. -/
def serveSecond (p1 p2 : List PyStmt) : List Char :=
  (execProgram (execProgram [] p1).1 p2).2

/-- Output observed by the same request run against a fresh process. -/
def serveFresh (p2 : List PyStmt) : List Char :=
  (execProgram [] p2).2

/-- Does a statement mutate the shared builtins object? -/
def touchesBuiltins : PyStmt → Bool
  | PyStmt.setBuiltinAttr _ _ => true
  | _ => false

/-! ### Auxiliary definitions for the theorems -/

/-- The condition under which the token-absent family reaches its
`return code` terminal: cloud mode, or local mode with no complete section
marker found and neither legacy pattern matching. -/
def absent_no_match (lm : Bool) (s : List Char) : Bool :=
  if !lm then true
  else if hasSub header_pattern s && decide (3 ≤ (splitSections s).length) then false
  else !(rmatch legacy_pattern_with_token s) && !(hasSub legacy_pattern_no_token s)

/-- The condition under which `replace_ibm_quantum_config` reaches a
`return code` terminal without applying any rule. -/
def no_rule_fires (lm : Bool) (cfgO : Option IbmConfig) (s : List Char) : Bool :=
  match cfgO with
  | some cfg =>
    match cfg.token with
    | some t =>
      if t == "" then absent_no_match lm s
      else
        !(hasSub aer_pattern s) && !(hasSub ibm_pattern_no_token s) &&
          !(rmatch ibm_pattern_with_token s) && !(hasSub qrs_call s)
    | none => absent_no_match lm s
  | none => absent_no_match lm s

/-- All writes of a behaviour concatenated in the order they occurred,
interleaving the two channels: the "single ordered stream" reading of the
capture contract. -/
def writeOrderText (b : PyBehavior) : List Char :=
  List.flatten (b.writes.map fun w => w.2)

/-! ### Concrete fixtures used by witnesses and counterexamples -/

/-- A credential with a non-empty token and no optional fields. -/
def cfgT : IbmConfig := ⟨some "TOK", none, none, none⟩

/-- A buffer containing both the local-simulator block and the
remote-no-credential block. -/
def code4fix : List Char := aer_pattern ++ "\n".data ++ ibm_pattern_no_token

/-- A buffer containing the legacy no-credential block followed by the
designated section header with no trailing newline (so the section split
finds no marker). -/
def fixtureC3 : List Char :=
  ibm_pattern_no_token ++ "\n## STEP 0 : IBM Quantum Config".data

/-- A structured buffer with a STEP 0 section, a later section, and an
options-accessor line. -/
def sectionFix : List Char :=
  "## STEP 0 : IBM Quantum Config\nOLD\n## STEP 1 : Run\nres.options.depth = 2\nprint(1)\n".data

/-- A buffer whose only occurrences of the bare construction call sit in a
comment and in a string literal. -/
def commentFix : List Char :=
  "# QiskitRuntimeService()\ns = \"QiskitRuntimeService()\"\n".data

/-- Python semantics stub: the program prints `first` to stdout and then
faults with message `boom`. -/
def pySemC5 : List Char → PyBehavior := fun _ =>
  ⟨[(Chan.stdout, "first\n".data)], some "boom".data⟩

/-- Python semantics stub: the program writes `E` to stderr and then `O`
to stdout, and completes without fault. -/
def pySemC8 : List Char → PyBehavior := fun _ =>
  ⟨[(Chan.stderr, "E".data), (Chan.stdout, "O".data)], none⟩

/-- Offloaded execution stub that completes with empty output. -/
def execStub : List Char → Option IbmConfig → ExecResult := fun _ _ =>
  ExecResult.completed []

/-- Offloaded execution stub that times out. -/
def execTimeoutStub : List Char → Option IbmConfig → ExecResult := fun _ _ =>
  ExecResult.timedOut

/-- A valid JSON body with no `input_value` field. -/
def missingFieldBody : RunBody := ⟨none, none, none, none, none⟩

/-- A request program that mutates the shared builtins object. -/
def progLeak : List PyStmt := [PyStmt.setBuiltinAttr "leak" "42"]

/-- A request program that observes the shared builtins object. -/
def progProbe : List PyStmt := [PyStmt.printBuiltinAttr "leak"]

/-! ### Supporting lemmas -/

theorem intercal_cons (sep x : List Char) (L : List (List Char)) (h : L ≠ []) :
    intercal sep (x :: L) = x ++ sep ++ intercal sep L := by
  cases L with
  | nil => exact absurd rfl h
  | cons y rest => rfl

theorem splitOnPF_ne_nil (pat : List Char) :
    ∀ fuel acc s, splitOnPF pat fuel acc s ≠ [] := by
  intro fuel
  induction fuel with
  | zero =>
    intro acc s
    cases s <;> simp [splitOnPF]
  | succ n ih =>
    intro acc s
    cases s with
    | nil => simp [splitOnPF]
    | cons c rest =>
      rw [splitOnPF]
      by_cases h : (pat.isPrefixOf (c :: rest) && !pat.isEmpty) = true
      · rw [if_pos h]; simp
      · rw [if_neg h]; exact ih (c :: acc) rest

theorem intercal_splitOnPF (pat repl : List Char) :
    ∀ fuel acc s,
      intercal repl (splitOnPF pat fuel acc s) = acc.reverse ++ replaceAllF pat repl fuel s := by
  intro fuel
  induction fuel with
  | zero =>
    intro acc s
    cases s <;> simp [splitOnPF, replaceAllF, intercal]
  | succ n ih =>
    intro acc s
    cases s with
    | nil => simp [splitOnPF, replaceAllF, intercal]
    | cons c rest =>
      rw [splitOnPF, replaceAllF]
      by_cases h : (pat.isPrefixOf (c :: rest) && !pat.isEmpty) = true
      · rw [if_pos h, if_pos h,
          intercal_cons repl acc.reverse _ (splitOnPF_ne_nil pat n [] _), ih]
        simp
      · rw [if_neg h, if_neg h, ih (c :: acc) rest]
        simp

/-- `replaceAll` substitutes `repl` for every leftmost non-overlapping
occurrence of `pat`: the result is the in-between segments rejoined with
the replacement text in place of each occurrence. -/
theorem replaceAll_eq_intercal (pat repl s : List Char) :
    replaceAll pat repl s = intercal repl (splitOnP pat s) := by
  rw [splitOnP, intercal_splitOnPF]
  simp [replaceAll]

/-- Reduction of the rewriter to the token-present family under a truthy
token. -/
theorem replace_config_present (lm : Bool) (code : List Char) (cfg : IbmConfig)
    (t : String) (htok : cfg.token = some t) (hne : t ≠ "") :
    replace_ibm_quantum_config lm code (some cfg) = token_present_rewrite t cfg code := by
  have hb : (t == "") = false := beq_eq_false_iff_ne.mpr hne
  simp [replace_ibm_quantum_config, htok, hb]

/-- Reduction of the rewriter to the token-absent family when no truthy
token is supplied. -/
theorem replace_config_absent (lm : Bool) (code : List Char) (cfgO : Option IbmConfig)
    (h : truthyOpt (cfgO.bind IbmConfig.token) = false) :
    replace_ibm_quantum_config lm code cfgO = token_absent_rewrite lm code := by
  match cfgO with
  | none => rfl
  | some cfg =>
    match hcfg : cfg.token with
    | none => simp [replace_ibm_quantum_config, hcfg]
    | some t =>
      simp only [Option.some_bind, hcfg, truthyOpt, Bool.not_eq_false'] at h
      simp [replace_ibm_quantum_config, hcfg, h]

/-- If no rule of the selected family fires on `s`, the rewriter returns
`s` unchanged. -/
theorem no_rule_fires_id (lm : Bool) (cfgO : Option IbmConfig) (s : List Char)
    (h : no_rule_fires lm cfgO s = true) :
    replace_ibm_quantum_config lm s cfgO = s := by
  have habs : ∀ habs' : absent_no_match lm s = true, token_absent_rewrite lm s = s := by
    intro habs'
    unfold absent_no_match at habs'
    unfold token_absent_rewrite
    cases lm with
    | false => rfl
    | true =>
      simp only [Bool.not_true, if_false, Bool.false_eq_true] at habs' ⊢
      by_cases hh : (hasSub header_pattern s && decide (3 ≤ (splitSections s).length)) = true
      · rw [if_pos hh] at habs'
        exact absurd habs' (by simp)
      · rw [if_neg hh] at habs'
        simp only [Bool.and_eq_true, Bool.not_eq_true'] at habs'
        obtain ⟨h1, h2⟩ := habs'
        have hleg : legacy_rewrite s = s := by
          unfold legacy_rewrite
          rw [h1, h2]
          simp
        by_cases hhead : hasSub header_pattern s = true
        · rw [if_pos hhead]
          have hlen : ¬ (3 ≤ (splitSections s).length) := by
            intro hc
            rw [hhead] at hh
            simp [hc] at hh
          rw [if_neg hlen]
          exact hleg
        · rw [if_neg hhead]
          exact hleg
  unfold no_rule_fires at h
  match hcfg : cfgO with
  | none => exact habs h
  | some cfg =>
    match hcfgt : cfg.token with
    | none =>
      simp only [hcfgt] at h
      simp only [replace_ibm_quantum_config, hcfgt]
      exact habs h
    | some t =>
      simp only [hcfgt] at h
      by_cases hb : (t == "") = true
      · rw [if_pos hb] at h
        simp only [replace_ibm_quantum_config, hcfgt, if_pos hb]
        exact habs h
      · rw [if_neg hb] at h
        simp only [Bool.and_eq_true, Bool.not_eq_true'] at h
        obtain ⟨⟨⟨h1, h2⟩, h3⟩, h4⟩ := h
        simp only [replace_ibm_quantum_config, hcfgt, if_neg hb]
        unfold token_present_rewrite
        rw [h1, h2, h3, h4]
        simp

/-- Request programs not mutating the builtins object leave it unchanged. -/
theorem runProg_builtins_eq (p : List PyStmt) :
    ∀ st : ExecState, p.all (fun s => !(touchesBuiltins s)) = true →
      (runProg st p).builtins = st.builtins := by
  induction p with
  | nil => intro st _; rfl
  | cons x rest ih =>
    intro st h
    simp only [List.all_cons, Bool.and_eq_true, Bool.not_eq_true'] at h
    obtain ⟨hx, hrest⟩ := h
    have hstep : (runStmt st x).builtins = st.builtins := by
      cases x with
      | assignGlobal a b => rfl
      | printGlobal a => rfl
      | setBuiltinAttr a b => exact absurd hx (by simp [touchesBuiltins])
      | printBuiltinAttr a => rfl
    rw [runProg]
    rw [ih (runStmt st x) (by simpa [List.all_eq_true, Bool.not_eq_true'] using hrest)]
    exact hstep

/-! ### Claim theorems -/

/-- C1: the rewriter applies the token-present family exactly when the
credential carries a non-empty token, and then ignores the mode flag; with
no truthy token a supplied credential behaves like an absent one, the
token-absent family runs when the mode flag is local, and the buffer is
returned unchanged when the mode flag is cloud. -/
theorem c1_selection_rule (code : List Char) (cfg : IbmConfig) (lm : Bool) :
    (∀ t : String, cfg.token = some t → t ≠ "" →
        replace_ibm_quantum_config lm code (some cfg) = token_present_rewrite t cfg code ∧
        ∀ lm2 : Bool, replace_ibm_quantum_config lm code (some cfg)
          = replace_ibm_quantum_config lm2 code (some cfg)) ∧
    (truthyOpt cfg.token = false →
        replace_ibm_quantum_config lm code (some cfg)
          = replace_ibm_quantum_config lm code none) ∧
    (replace_ibm_quantum_config true code none = token_absent_rewrite true code) ∧
    (replace_ibm_quantum_config false code none = code) := by
  refine ⟨?_, ?_, rfl, rfl⟩
  · intro t ht hne
    refine ⟨replace_config_present lm code cfg t ht hne, fun lm2 => ?_⟩
    rw [replace_config_present lm code cfg t ht hne,
      replace_config_present lm2 code cfg t ht hne]
  · intro h
    rw [replace_config_absent lm code (some cfg) (by simpa using h),
      replace_config_absent lm code none (by simp [truthyOpt])]

/-- C1 witness: a concrete credential with non-empty token selects the
token-present family. -/
theorem c1_selection_rule_witness :
    replace_ibm_quantum_config true "x = 1".data (some cfgT)
      = token_present_rewrite "TOK" cfgT "x = 1".data :=
  ((c1_selection_rule "x = 1".data cfgT true).1 "TOK" rfl (by decide)).1

/-- C2: under a truthy token the four token-present rules are tried in the
fixed order (a) local-simulator block, (b) remote block without credential,
(c) remote block with credential, (d) bare construction call; the first
rule whose trigger matches is the one applied, and with no match the
buffer is returned unchanged. -/
theorem c2_priority_order (code : List Char) (t : String) (cfg : IbmConfig) (lm : Bool)
    (htok : cfg.token = some t) (hne : t ≠ "") :
    (hasSub aer_pattern code = true →
      replace_ibm_quantum_config lm code (some cfg)
        = replaceAll aer_pattern (token_replacement (service_params_str t cfg)) code) ∧
    (hasSub aer_pattern code = false → hasSub ibm_pattern_no_token code = true →
      replace_ibm_quantum_config lm code (some cfg)
        = replaceAll ibm_pattern_no_token (token_replacement (service_params_str t cfg)) code) ∧
    (hasSub aer_pattern code = false → hasSub ibm_pattern_no_token code = false →
     rmatch ibm_pattern_with_token code = true →
      replace_ibm_quantum_config lm code (some cfg)
        = rsub ibm_pattern_with_token (token_replacement (service_params_str t cfg)) code) ∧
    (hasSub aer_pattern code = false → hasSub ibm_pattern_no_token code = false →
     rmatch ibm_pattern_with_token code = false → hasSub qrs_call code = true →
      replace_ibm_quantum_config lm code (some cfg)
        = replaceAll qrs_call (qrs_inject (service_params_str t cfg)) code) ∧
    (hasSub aer_pattern code = false → hasSub ibm_pattern_no_token code = false →
     rmatch ibm_pattern_with_token code = false → hasSub qrs_call code = false →
      replace_ibm_quantum_config lm code (some cfg) = code) := by
  have hred := replace_config_present lm code cfg t htok hne
  refine ⟨?_, ?_, ?_, ?_, ?_⟩
  · intro h1
    rw [hred]; simp [token_present_rewrite, h1]
  · intro h1 h2
    rw [hred]; simp [token_present_rewrite, h1, h2]
  · intro h1 h2 h3
    rw [hred]; simp [token_present_rewrite, h1, h2, h3]
  · intro h1 h2 h3 h4
    rw [hred]; simp [token_present_rewrite, h1, h2, h3, h4]
  · intro h1 h2 h3 h4
    rw [hred]; simp [token_present_rewrite, h1, h2, h3, h4]

/-- C2 witness: on a buffer containing both the local-simulator block and
the remote-no-credential block, rule (a) is the one applied. -/
theorem c2_priority_order_witness :
    replace_ibm_quantum_config true code4fix (some cfgT)
      = replaceAll aer_pattern (token_replacement (service_params_str "TOK" cfgT)) code4fix :=
  (c2_priority_order code4fix "TOK" cfgT true rfl (by decide)).1 (by decide)

/-- C3 counterexample: on a buffer that contains the designated header (as
the final line, with no trailing newline) together with a legacy
no-credential block, the section split finds no marker and the legacy
pattern IS applied, contradicting the claim that the legacy patterns are
used only when no such header exists. -/
theorem c3_counterexample :
    hasSub header_pattern fixtureC3 = true ∧
    replace_ibm_quantum_config true fixtureC3 none
      = stripOptionsLines (replaceAll legacy_pattern_no_token local_sim_replacement fixtureC3) ∧
    replace_ibm_quantum_config true fixtureC3 none ≠ fixtureC3 :=
  ⟨by decide, by decide, by decide⟩

/-- C3 (amended): in the token-absent family, when the buffer contains the
designated header AND splitting on section-header markers yields at least
one complete marker line, the buffer is split, the body after the first
STEP 0 marker is replaced by the local-simulator block, options-accessor
lines are deleted and sections are rejoined; the legacy patterns are used
as a fallback when the header is absent OR no complete marker line exists;
when nothing matches the buffer is returned unchanged (no exception). -/
theorem c3_amended (code : List Char) :
    (hasSub header_pattern code = true → 3 ≤ (splitSections code).length →
      replace_ibm_quantum_config true code none
        = stripOptionsLines (List.flatten (replaceStep0 step0_body (splitSections code)))) ∧
    (hasSub header_pattern code = true → (splitSections code).length < 3 →
      replace_ibm_quantum_config true code none = legacy_rewrite code) ∧
    (hasSub header_pattern code = false →
      replace_ibm_quantum_config true code none = legacy_rewrite code) ∧
    (rmatch legacy_pattern_with_token code = false →
     hasSub legacy_pattern_no_token code = false →
      legacy_rewrite code = code) := by
  have hred : replace_ibm_quantum_config true code none = token_absent_rewrite true code := rfl
  refine ⟨?_, ?_, ?_, ?_⟩
  · intro hhead hlen
    rw [hred]; simp [token_absent_rewrite, hhead, hlen]
  · intro hhead hlen
    have hnle : ¬ 3 ≤ (splitSections code).length := by omega
    rw [hred]; simp [token_absent_rewrite, hhead, hnle]
  · intro hhead
    rw [hred]; simp [token_absent_rewrite, hhead]
  · intro h1 h2
    simp [legacy_rewrite, h1, h2]

/-- C3 witness: a structured buffer with a STEP 0 section takes the
section-splitting path. -/
theorem c3_amended_witness :
    replace_ibm_quantum_config true sectionFix none
      = stripOptionsLines (List.flatten (replaceStep0 step0_body (splitSections sectionFix))) :=
  (c3_amended sectionFix).1 (by decide) (by decide)

/-- C4 counterexample: rewriting is NOT idempotent.  On a buffer holding
both the local-simulator block and the remote-no-credential block, the
first pass replaces only the simulator block (rule (a)); the second pass
then fires rule (b) on the remaining block, so applying the rewriter twice
differs from applying it once. -/
theorem c4_counterexample :
    replace_ibm_quantum_config true
        (replace_ibm_quantum_config true code4fix (some cfgT)) (some cfgT)
      ≠ replace_ibm_quantum_config true code4fix (some cfgT) := by decide

/-- C4 (amended): rewriting is idempotent whenever the rewritten buffer
matches no further trigger of the selected rule family (in particular the
replacement text never matches its own trigger); it can fail to be
idempotent when the original buffer contains the triggers of two distinct
rules, because only the first matching rule is applied per pass. -/
theorem c4_amended (lm : Bool) (cfgO : Option IbmConfig) (code : List Char)
    (h : no_rule_fires lm cfgO (replace_ibm_quantum_config lm code cfgO) = true) :
    replace_ibm_quantum_config lm (replace_ibm_quantum_config lm code cfgO) cfgO
      = replace_ibm_quantum_config lm code cfgO :=
  no_rule_fires_id lm cfgO _ h

/-- C4 witness: a trigger-free buffer is a fixed point of the rewriter. -/
theorem c4_amended_witness :
    replace_ibm_quantum_config true (replace_ibm_quantum_config true "pass".data none) none
      = replace_ibm_quantum_config true "pass".data none :=
  c4_amended true none "pass".data (by decide)

/-- C5 counterexample: a script that prints `first` to standard output and
then faults returns only the error line — the captured standard output is
NOT included, contradicting the claim that the result contains both
`first` and the error prefix. -/
theorem c5_counterexample :
    execute_python_code pySemC5 true "demo".data none
      = "Error executing code: boom\n".data ∧
    hasSub "first".data (execute_python_code pySemC5 true "demo".data none) = false :=
  ⟨by decide, by decide⟩

/-- C5 (amended): on an unhandled fault the sandbox never propagates the
fault; it returns text beginning with the single-line
`Error executing code: <message>` prefix followed by the standard-error
output captured before the fault — the standard output captured before the
fault is discarded. -/
theorem c5_amended (pySem : List Char → PyBehavior) (lm : Bool) (code : List Char)
    (cfgO : Option IbmConfig) (msg : List Char)
    (h : (pySem (replace_ibm_quantum_config lm code cfgO)).fault = some msg) :
    execute_python_code pySem lm code cfgO
      = "Error executing code: ".data ++ msg ++ "\n".data
        ++ channelText Chan.stderr (pySem (replace_ibm_quantum_config lm code cfgO)) ∧
    ("Error executing code: ".data).isPrefixOf (execute_python_code pySem lm code cfgO)
      = true := by
  have h1 : execute_python_code pySem lm code cfgO
      = "Error executing code: ".data ++ msg ++ "\n".data
        ++ channelText Chan.stderr (pySem (replace_ibm_quantum_config lm code cfgO)) := by
    unfold execute_python_code runCapture
    rw [h]
  refine ⟨h1, ?_⟩
  rw [h1, List.isPrefixOf_iff_prefix]
  exact List.prefix_append _ _

/-- C5 witness: the faulting fixture instantiates the amended statement. -/
theorem c5_amended_witness :
    execute_python_code pySemC5 true "demo".data none
      = "Error executing code: ".data ++ "boom".data ++ "\n".data
        ++ channelText Chan.stderr (pySemC5 (replace_ibm_quantum_config true "demo".data none)) :=
  (c5_amended pySemC5 true "demo".data none "boom".data rfl).1

/-- C6 counterexample: a well-formed JSON body that merely lacks the
`input_value` field makes `data["input_value"]` raise an uncaught
`KeyError`, which the framework answers with status 500 — a server error,
not the 400-class response the claim requires. -/
theorem c6_counterexample :
    (run_program execStub (RunRequest.valid missingFieldBody)).status = 500 ∧
    ¬ isClientErr (run_program execStub (RunRequest.valid missingFieldBody)).status :=
  ⟨rfl, by decide⟩

/-- C6 (amended): a body that is not valid JSON receives an immediate 400
response; a valid JSON body missing `input_value` receives a 500 response
(the unhandled `KeyError`); neither is a 200, and in both cases the
response is independent of the offloaded rewriter-and-sandbox call, which
is never invoked. -/
theorem c6_amended (r1 r2 : List Char → Option IbmConfig → ExecResult) (body : RunBody) :
    (run_program r1 RunRequest.badJson).status = 400 ∧
    isClientErr (run_program r1 RunRequest.badJson).status ∧
    run_program r1 RunRequest.badJson = run_program r2 RunRequest.badJson ∧
    (body.input_value = none →
      (run_program r1 (RunRequest.valid body)).status = 500 ∧
      (run_program r1 (RunRequest.valid body)).status ≠ 200 ∧
      run_program r1 (RunRequest.valid body) = run_program r2 (RunRequest.valid body)) := by
  refine ⟨rfl, ?_, rfl, ?_⟩
  · show isClientErr 400
    decide
  · intro h
    refine ⟨?_, ?_, ?_⟩ <;> simp [run_program, h]

/-- C6 witness: concrete malformed requests receive 400 and 500. -/
theorem c6_amended_witness :
    (run_program execStub RunRequest.badJson).status = 400 ∧
    (run_program execStub (RunRequest.valid missingFieldBody)).status = 500 :=
  ⟨(c6_amended execStub execTimeoutStub missingFieldBody).1,
   ((c6_amended execStub execTimeoutStub missingFieldBody).2.2.2 rfl).1⟩

/-- C7: every well-formed `/run` request (valid JSON with `input_value`)
is answered with HTTP 200 and the outcome text under the single `output`
field, whether the execution completed (successfully or with a captured
fault) or timed out; on timeout the text states that execution timed out
after 30 minutes. -/
theorem c7_success_response (runExec : List Char → Option IbmConfig → ExecResult)
    (body : RunBody) (code : String) (h : body.input_value = some code) :
    (run_program runExec (RunRequest.valid body)).status = 200 ∧
    (run_program runExec (RunRequest.valid body)).output
      = some (normalize_output
          (match runExec code.data (requestConfig body) with
           | ExecResult.completed o => o
           | ExecResult.timedOut => timeout_message)) ∧
    (runExec code.data (requestConfig body) = ExecResult.timedOut →
      (run_program runExec (RunRequest.valid body)).output = some timeout_message ∧
      hasSub "timed out after 30 minutes".data timeout_message = true) := by
  refine ⟨by simp [run_program, h], by simp [run_program, h], ?_⟩
  intro ht
  refine ⟨?_, by decide⟩
  simp only [run_program, h, ht]
  decide

/-- C7 witness: a timed-out request still gets a 200 response carrying the
timeout text. -/
theorem c7_success_response_witness :
    (run_program execTimeoutStub
        (RunRequest.valid ⟨some "x", none, none, none, none⟩)).status = 200 ∧
    (run_program execTimeoutStub
        (RunRequest.valid ⟨some "x", none, none, none, none⟩)).output
      = some timeout_message :=
  ⟨(c7_success_response execTimeoutStub ⟨some "x", none, none, none, none⟩ "x" rfl).1,
   ((c7_success_response execTimeoutStub ⟨some "x", none, none, none, none⟩ "x" rfl).2.2 rfl).1⟩

/-- C8 counterexample: a program that writes `E` to stderr and then `O` to
stdout and completes without fault yields `OE` — all stdout before all
stderr — not the write-order interleaving `EO` the claim requires. -/
theorem c8_counterexample :
    (pySemC8 (replace_ibm_quantum_config true "demo".data none)).fault = none ∧
    execute_python_code pySemC8 true "demo".data none = "OE".data ∧
    execute_python_code pySemC8 true "demo".data none
      ≠ writeOrderText (pySemC8 (replace_ibm_quantum_config true "demo".data none)) :=
  ⟨rfl, by decide, by decide⟩

/-- C8 (amended): on fault-free execution the sandbox returns everything
written to standard output, in write order, followed by everything written
to standard error, in write order (the channels are captured separately
and concatenated, not interleaved); when nothing was written it returns
the sentinel text instead of an empty string. -/
theorem c8_amended (pySem : List Char → PyBehavior) (lm : Bool) (code : List Char)
    (cfgO : Option IbmConfig)
    (h : (pySem (replace_ibm_quantum_config lm code cfgO)).fault = none) :
    execute_python_code pySem lm code cfgO
      = (let b := pySem (replace_ibm_quantum_config lm code cfgO)
         let output := channelText Chan.stdout b ++ channelText Chan.stderr b
         if output.isEmpty then no_output_sentinel else output) := by
  unfold execute_python_code runCapture
  rw [h]

/-- C8 witness: the two-channel fixture instantiates the amended
statement. -/
theorem c8_amended_witness :
    execute_python_code pySemC8 true "demo".data none
      = (let b := pySemC8 (replace_ibm_quantum_config true "demo".data none)
         let output := channelText Chan.stdout b ++ channelText Chan.stderr b
         if output.isEmpty then no_output_sentinel else output) :=
  c8_amended pySemC8 true "demo".data none rfl

/-- C9 counterexample: state CAN leak between requests.  A first request
that sets an attribute on the shared builtins object is observable by a
second request probing that attribute, so the output of the second request
differs from what it would be in a fresh process. -/
theorem c9_counterexample :
    serveSecond progLeak progProbe ≠ serveFresh progProbe := by decide

/-- C9 (amended): each invocation runs with a fresh globals namespace, so
names defined through it by one request are not observable by the next;
isolation holds for every first request that does not mutate the shared
builtins object passed into that namespace (mutations of that shared
object do leak). -/
theorem c9_amended (p1 p2 : List PyStmt)
    (h : p1.all (fun s => !(touchesBuiltins s)) = true) :
    serveSecond p1 p2 = serveFresh p2 := by
  have hb : (execProgram [] p1).1 = ([] : Env) :=
    runProg_builtins_eq p1 ⟨[], [], []⟩ h
  unfold serveSecond serveFresh
  rw [hb]

/-- C9 witness: a first request that only defines a global variable is not
observable by a probing second request. -/
theorem c9_amended_witness :
    serveSecond [PyStmt.assignGlobal "x" "1"] progProbe = serveFresh progProbe :=
  c9_amended [PyStmt.assignGlobal "x" "1"] progProbe (by decide)

/-- C10: when token-present rule (a) fires it substitutes the replacement
for EVERY leftmost non-overlapping occurrence of the local-simulator
block, and when the catch-all rule (d) fires it injects the parameter list
into EVERY occurrence of the bare `QiskitRuntimeService()` call — the
rewrite is plain text substitution, so occurrences inside comments or
string literals are rewritten too. -/
theorem c10_all_occurrences (code : List Char) (t : String) (cfg : IbmConfig) (lm : Bool)
    (htok : cfg.token = some t) (hne : t ≠ "") :
    (hasSub aer_pattern code = true →
      replace_ibm_quantum_config lm code (some cfg)
        = intercal (token_replacement (service_params_str t cfg))
            (splitOnP aer_pattern code)) ∧
    (hasSub aer_pattern code = false → hasSub ibm_pattern_no_token code = false →
     rmatch ibm_pattern_with_token code = false → hasSub qrs_call code = true →
      replace_ibm_quantum_config lm code (some cfg)
        = intercal (qrs_inject (service_params_str t cfg))
            (splitOnP qrs_call code)) := by
  have hred := replace_config_present lm code cfg t htok hne
  constructor
  · intro h1
    rw [hred, ← replaceAll_eq_intercal]
    simp [token_present_rewrite, h1]
  · intro h1 h2 h3 h4
    rw [hred, ← replaceAll_eq_intercal]
    simp [token_present_rewrite, h1, h2, h3, h4]

/-- C10 witness: a buffer whose only `QiskitRuntimeService()` occurrences
sit in a comment and in a string literal has both of them rewritten. -/
theorem c10_all_occurrences_witness :
    replace_ibm_quantum_config true commentFix (some cfgT)
      = intercal (qrs_inject (service_params_str "TOK" cfgT))
          (splitOnP qrs_call commentFix) :=
  (c10_all_occurrences commentFix "TOK" cfgT true rfl (by decide)).2
    (by decide) (by decide) (by decide) (by decide)

end QiskitAgent
